import Mathlib

/-!
Verification of the Notification_service user-management REST service.

The embedding follows the source files:
- `src/routes/users.js` (list and create handlers),
- `src/routes/health.js` (health handler),
- `src/server.js` (router, root route, 404 handler),
- `init.sql` (the `users` table schema and seed rows).

The database is modelled as the list of rows of the `users` table together
with its AUTO_INCREMENT counter.  The persistence gateway's possible failure
is passed explicitly (`gw : Option String`: `none` means the gateway is up,
`some e` means acquiring the connection / running the query throws an error
whose `message` is `e`).  The external email validator (`validator.js`'s
`isEmail`, library code outside this repository) is a parameter
`isEmail : String → Bool`.
-/

namespace NotificationService

/-- A row of the `users` table (`init.sql`): id (AUTO_INCREMENT primary key),
name (NOT NULL), email (UNIQUE NOT NULL), created_at (timestamp default now,
modelled as a `Nat`). -/
structure UserRow where
  id : Nat
  name : String
  email : String
  created_at : Nat
deriving Repr, DecidableEq

/-- The `users` table together with its AUTO_INCREMENT counter: the id the
store will assign to the next inserted row. -/
structure Db where
  rows : List UserRow
  nextId : Nat
deriving Repr, DecidableEq

/-- The seed state from `init.sql`: John Doe and Jane Smith inserted, so the
AUTO_INCREMENT counter stands at 3. -/
def initDb : Db :=
  { rows := [⟨1, "John Doe", "john@example.com", 0⟩,
             ⟨2, "Jane Smith", "jane@example.com", 0⟩],
    nextId := 3 }

/-- Whether some stored row already uses the given email (the UNIQUE
constraint on `users.email` rejects an insert exactly when this holds). -/
def Db.hasEmail (db : Db) (e : String) : Bool :=
  db.rows.any (fun r => r.email == e)

/-- All stored ids are below the AUTO_INCREMENT counter, as the store
maintains for `AUTO_INCREMENT PRIMARY KEY`. -/
def Db.freshIds (db : Db) : Bool :=
  db.rows.all (fun r => r.id < db.nextId)

/-- A JSON request body for the create endpoint: each of `name` and `email`
may be absent. -/
structure ReqBody where
  name : Option String
  email : Option String
deriving Repr, DecidableEq

/-- `validator.js` `isEmpty` with its default options (`ignore_whitespace:
false`): true exactly when the string has length zero; no trimming. -/
def isEmptyStr (s : String) : Bool :=
  s.length == 0

/-- `body('name').notEmpty()` from `src/routes/users.js`: the field fails
when absent or when present and empty. -/
def nameValid (b : ReqBody) : Bool :=
  match b.name with
  | none => false
  | some s => !(isEmptyStr s)

/-- `body('email').isEmail()` from `src/routes/users.js`: the field fails
when absent, and otherwise is judged by the external `isEmail` validator
(library code, passed as a parameter). -/
def emailValid (isEmail : String → Bool) (b : ReqBody) : Bool :=
  match b.email with
  | none => false
  | some s => isEmail s

/-- `validationResult(req).array()`: one entry per failed field, in the order
the validation chains are declared (`name` first, then `email`); each entry
is identified by its field path. -/
def validationErrors (isEmail : String → Bool) (b : ReqBody) : List String :=
  (if nameValid b then [] else ["name"]) ++
  (if emailValid isEmail b then [] else ["email"])

/-- The JSON body of a response, one constructor per body shape the handlers
produce. `created` carries exactly the store-assigned id and the submitted
name and email (`res.status(201).json({ id: result.insertId, name, email })`);
it has no `created_at` field. `errMsg m` is `{ error: m }`; `fieldErrors` is
`{ errors: [...] }`; `healthy t` is `{ status: "healthy", timestamp: t }`;
`unhealthy m` is `{ status: "unhealthy", error: m }`; `html` is the static
`index.html` document. -/
inductive RespBody where
  | userList (rows : List (Nat × String × String))
  | created (id : Nat) (name : String) (email : String)
  | fieldErrors (errors : List String)
  | errMsg (msg : String)
  | healthy (timestamp : Nat)
  | unhealthy (msg : String)
  | html
deriving Repr, DecidableEq

/-- The `message` of the error the MySQL driver throws when the UNIQUE
constraint on `users.email` rejects an insert (an ER_DUP_ENTRY error naming
the duplicate value and the key). -/
def dupEntryMessage (e : String) : String :=
  "Duplicate entry " ++ e ++ " for key users.email"

/-- `GET /api/users` from `src/routes/users.js`: acquire a connection (a
gateway failure is caught and answered with `500 { error: error.message }`),
run `SELECT id, name, email FROM users` — projecting away `created_at` — and
answer `200` with the rows.  Returns status, body, and the store after the
call. -/
def listUsers (gw : Option String) (db : Db) : Nat × RespBody × Db :=
  match gw with
  | some e => (500, .errMsg e, db)
  | none => (200, .userList (db.rows.map (fun r => (r.id, r.name, r.email))), db)

/-- `POST /api/users` from `src/routes/users.js`: run the validation chains;
on any validation error answer `400 { errors: [...] }` before touching the
store.  Otherwise acquire a connection and run the parameterized INSERT: a
gateway failure or a duplicate-email UNIQUE violation throws and is caught,
answered with `500 { error: error.message }`; on success the store appends
one row with the AUTO_INCREMENT id and `created_at := now`, and the handler
answers `201 { id: result.insertId, name, email }`. -/
def createUser (isEmail : String → Bool) (gw : Option String) (now : Nat)
    (b : ReqBody) (db : Db) : Nat × RespBody × Db :=
  let errs := validationErrors isEmail b
  if errs.isEmpty then
    match gw with
    | some e => (500, .errMsg e, db)
    | none =>
      let name := b.name.getD ""
      let email := b.email.getD ""
      if db.hasEmail email then
        (500, .errMsg (dupEntryMessage email), db)
      else
        (201, .created db.nextId name email,
         { rows := db.rows ++ [⟨db.nextId, name, email, now⟩],
           nextId := db.nextId + 1 })
  else
    (400, .fieldErrors errs, db)

/-- `GET /api/health` from `src/routes/health.js`: acquire a connection and
`ping()` it — a no-op round trip that reads no table, so the result does not
depend on `db`.  On success answer `200 { status: "healthy", timestamp: new
Date() }` with the time of this very call; on failure answer
`503 { status: "unhealthy", error: error.message }`. -/
def healthCheck (gw : Option String) (now : Nat) (db : Db) : Nat × RespBody :=
  match gw, db with
  | some e, _ => (503, .unhealthy e)
  | none, _ => (200, .healthy now)

/-- HTTP methods used by the registered routes. -/
inductive Method where
  | get
  | post
deriving Repr, DecidableEq

/-- The route table of `src/server.js`: the user router mounted at
`/api/users` (GET and POST), the health router at `/api/health` (GET), and
the root route serving the static entry document. -/
def routeMatches (m : Method) (path : String) : Bool :=
  (m == .get && path == "/api/users") ||
  (m == .post && path == "/api/users") ||
  (m == .get && path == "/api/health") ||
  (m == .get && path == "/")

/-- The dispatch of `src/server.js`: requests are routed by path and method
to the handlers; `GET /` answers `200` with the static `index.html`; any
request matching no registered route falls through to the 404 handler
`res.status(404).json({ error: "Not Found" })`. -/
def dispatch (isEmail : String → Bool) (gw : Option String) (now : Nat)
    (m : Method) (path : String) (b : ReqBody) (db : Db) :
    Nat × RespBody × Db :=
  if m == .get && path == "/api/users" then
    listUsers gw db
  else if m == .post && path == "/api/users" then
    createUser isEmail gw now b db
  else if m == .get && path == "/api/health" then
    ((healthCheck gw now db).1, (healthCheck gw now db).2, db)
  else if m == .get && path == "/" then
    (200, .html, db)
  else
    (404, .errMsg "Not Found", db)

/-- A concrete executable stand-in for the external email validator, used
only to instantiate witnesses: accepts a string containing an at sign. -/
def hasAtSign (s : String) : Bool :=
  s.data.any (fun c => c == Char.ofNat 64)

/-- The validation chain reports no error exactly when both fields pass. -/
theorem validationErrors_nil_iff (isEmail : String → Bool) (b : ReqBody) :
    validationErrors isEmail b = [] ↔
      (nameValid b = true ∧ emailValid isEmail b = true) := by
  unfold validationErrors
  cases nameValid b <;> cases emailValid isEmail b <;> simp

/-- C1: the claim says a duplicate-email insert is reported as a client-side
conflict rejection, not a generic server failure.  At the concrete request
reusing the seeded email `john@example.com`, the create handler in fact
answers status 500 with the `{ error: message }` shape it uses for every
unexpected failure, carrying the raw driver message — not a 4xx conflict. -/
theorem C1_counterexample :
    createUser hasAtSign none 5 ⟨some "Johnny", some "john@example.com"⟩ initDb =
      (500, .errMsg (dupEntryMessage "john@example.com"), initDb) := by
  decide

/-- C1 amended: for every create request passing validation whose email is
already stored, the handler answers status 500 with the driver's
duplicate-entry message as the body, leaves the store unchanged, and does
not retry the insert (the single call produces the single response). -/
theorem C1_duplicate_is_500 (isEmail : String → Bool) (now : Nat)
    (b : ReqBody) (db : Db) (e : String)
    (hv : validationErrors isEmail b = [])
    (he : b.email = some e)
    (hdup : db.hasEmail e = true) :
    createUser isEmail none now b db = (500, .errMsg (dupEntryMessage e), db) := by
  unfold createUser
  simp [hv, he, hdup]

/-- C1 witness: the amended statement instantiated at the seed store and the
request `{ name: "Johnny", email: "john@example.com" }`. -/
theorem C1_witness :
    (validationErrors hasAtSign ⟨some "Johnny", some "john@example.com"⟩ = [] ∧
     initDb.hasEmail "john@example.com" = true) ∧
    createUser hasAtSign none 5 ⟨some "Johnny", some "john@example.com"⟩ initDb =
      (500, .errMsg (dupEntryMessage "john@example.com"), initDb) :=
  ⟨⟨by decide, by decide⟩,
   C1_duplicate_is_500 hasAtSign 5 ⟨some "Johnny", some "john@example.com"⟩
     initDb "john@example.com" (by decide) rfl (by decide)⟩

/-- C2: every create request with an absent or empty name, or an absent or
invalid email, is answered 400 with a body listing every violated field (the
`name` entry whenever name fails and the `email` entry whenever email fails),
and the store is returned unchanged — the validation check runs before any
persistence call. -/
theorem C2_validation_rejection (isEmail : String → Bool) (gw : Option String)
    (now : Nat) (b : ReqBody) (db : Db)
    (h : nameValid b = false ∨ emailValid isEmail b = false) :
    (createUser isEmail gw now b db).1 = 400 ∧
    (createUser isEmail gw now b db).2.1 =
      .fieldErrors (validationErrors isEmail b) ∧
    (nameValid b = false → "name" ∈ validationErrors isEmail b) ∧
    (emailValid isEmail b = false → "email" ∈ validationErrors isEmail b) ∧
    (createUser isEmail gw now b db).2.2 = db := by
  unfold createUser validationErrors
  rcases h with h | h <;>
    cases hn : nameValid b <;> cases he : emailValid isEmail b <;>
      simp_all

/-- C2 witness: the request `{ name: "" }` (empty name, absent email) is
rejected with both fields listed and the seed store untouched. -/
theorem C2_witness :
    (nameValid ⟨some "", none⟩ = false ∨
     emailValid hasAtSign ⟨some "", none⟩ = false) ∧
    ((createUser hasAtSign none 0 ⟨some "", none⟩ initDb).1 = 400 ∧
     (createUser hasAtSign none 0 ⟨some "", none⟩ initDb).2.1 =
       .fieldErrors (validationErrors hasAtSign ⟨some "", none⟩) ∧
     (nameValid ⟨some "", none⟩ = false →
       "name" ∈ validationErrors hasAtSign ⟨some "", none⟩) ∧
     (emailValid hasAtSign ⟨some "", none⟩ = false →
       "email" ∈ validationErrors hasAtSign ⟨some "", none⟩) ∧
     (createUser hasAtSign none 0 ⟨some "", none⟩ initDb).2.2 = initDb) :=
  ⟨Or.inl (by decide),
   C2_validation_rejection hasAtSign none 0 ⟨some "", none⟩ initDb
     (Or.inl (by decide))⟩

/-- C3: the claim says an unexpected data-operation failure is reported
generically, with no raw driver error text.  At a concrete gateway failure,
the list handler echoes the driver's message verbatim in the response body
(`res.status(500).json({ error: error.message })`), so the body does contain
the raw driver error text. -/
theorem C3_counterexample :
    (listUsers (some "connect ECONNREFUSED 127.0.0.1:3306") initDb).2.1 =
      .errMsg "connect ECONNREFUSED 127.0.0.1:3306" := by
  decide

/-- C3 amended: for every unexpected (non-validation) failure of list or
create, the response is status 500 whose body is `{ error: message }`
echoing the failure's raw message text; no stack trace is included (the body
carries only the message string). -/
theorem C3_error_echoes_message (isEmail : String → Bool) (now : Nat)
    (b : ReqBody) (db : Db) (e : String)
    (hv : validationErrors isEmail b = []) :
    listUsers (some e) db = (500, .errMsg e, db) ∧
    createUser isEmail (some e) now b db = (500, .errMsg e, db) := by
  refine ⟨rfl, ?_⟩
  unfold createUser
  simp [hv]

/-- C3 witness: the amended statement instantiated at a concrete connection
failure and a validation-passing request. -/
theorem C3_witness :
    validationErrors hasAtSign ⟨some "Ada", some "ada@example.com"⟩ = [] ∧
    (listUsers (some "timeout") initDb = (500, .errMsg "timeout", initDb) ∧
     createUser hasAtSign (some "timeout") 0
       ⟨some "Ada", some "ada@example.com"⟩ initDb =
       (500, .errMsg "timeout", initDb)) :=
  ⟨by decide,
   C3_error_echoes_message hasAtSign 0 ⟨some "Ada", some "ada@example.com"⟩
     initDb "timeout" (by decide)⟩

/-- C4: every create request with valid name and email and a not-yet-used
email inserts exactly one row (id assigned by the store, `created_at` set)
and answers 201 with the body carrying exactly the store-assigned id plus
the submitted name and email — the `created` body constructor has no
`created_at` field. -/
theorem C4_create_success (isEmail : String → Bool) (now : Nat) (b : ReqBody)
    (db : Db) (n e : String)
    (hn : b.name = some n) (he : b.email = some e)
    (hv : validationErrors isEmail b = [])
    (hfresh : db.hasEmail e = false) :
    createUser isEmail none now b db =
      (201, .created db.nextId n e,
       { rows := db.rows ++ [⟨db.nextId, n, e, now⟩],
         nextId := db.nextId + 1 }) ∧
    ((createUser isEmail none now b db).2.2).rows.length =
      db.rows.length + 1 := by
  have hmain : createUser isEmail none now b db =
      (201, .created db.nextId n e,
       { rows := db.rows ++ [⟨db.nextId, n, e, now⟩],
         nextId := db.nextId + 1 }) := by
    unfold createUser
    simp [hv, hn, he, hfresh]
  refine ⟨hmain, ?_⟩
  rw [hmain]
  simp

/-- C4 witness: creating `{ name: "Ada", email: "ada@example.com" }` on the
seed store yields 201 with id 3 and one more stored row. -/
theorem C4_witness :
    (validationErrors hasAtSign ⟨some "Ada", some "ada@example.com"⟩ = [] ∧
     initDb.hasEmail "ada@example.com" = false) ∧
    (createUser hasAtSign none 9 ⟨some "Ada", some "ada@example.com"⟩ initDb =
      (201, .created initDb.nextId "Ada" "ada@example.com",
       { rows := initDb.rows ++ [⟨initDb.nextId, "Ada", "ada@example.com", 9⟩],
         nextId := initDb.nextId + 1 }) ∧
     ((createUser hasAtSign none 9 ⟨some "Ada", some "ada@example.com"⟩
        initDb).2.2).rows.length = initDb.rows.length + 1) :=
  ⟨⟨by decide, by decide⟩,
   C4_create_success hasAtSign 9 ⟨some "Ada", some "ada@example.com"⟩ initDb
     "Ada" "ada@example.com" rfl rfl (by decide) (by decide)⟩

/-- C5: for every store state the list operation answers 200 with all stored
users projected to id, name, email (no `created_at`); the empty store yields
the empty list, not an error; and a persistence failure answers status 500
with an error body distinct from any user list, in particular from the
empty-list result. -/
theorem C5_list_contract (db : Db) (k : Nat) (e : String) :
    listUsers none db =
      (200, .userList (db.rows.map (fun r => (r.id, r.name, r.email))), db) ∧
    listUsers none { rows := [], nextId := k } =
      (200, .userList [], { rows := [], nextId := k }) ∧
    (listUsers (some e) db).1 = 500 ∧
    ∀ l, (listUsers (some e) db).2.1 ≠ .userList l := by
  refine ⟨rfl, rfl, rfl, ?_⟩
  intro l h
  exact RespBody.noConfusion h

/-- C6: when the gateway's ping succeeds the health handler answers 200 with
the healthy status and the timestamp of this very call; when the ping fails
it answers 503 with the unhealthy status and the failure's message; and the
result never depends on the contents of the `users` table. -/
theorem C6_health_contract (gw : Option String) (now : Nat) (db db2 : Db)
    (e : String) :
    healthCheck none now db = (200, .healthy now) ∧
    healthCheck (some e) now db = (503, .unhealthy e) ∧
    healthCheck gw now db = healthCheck gw now db2 := by
  refine ⟨rfl, rfl, ?_⟩
  cases gw <;> rfl

/-- C7: every request whose method and path match no registered route is
answered 404 with the structured JSON body `{ error: "Not Found" }`, and a
GET of the root path is answered 200 with the static entry document, the
store untouched in both cases. -/
theorem C7_router_contract (isEmail : String → Bool) (gw : Option String)
    (now : Nat) (m : Method) (path : String) (b : ReqBody) (db : Db)
    (h : routeMatches m path = false) :
    dispatch isEmail gw now m path b db = (404, .errMsg "Not Found", db) ∧
    dispatch isEmail gw now .get "/" b db = (200, .html, db) := by
  constructor
  · cases m <;> simp_all [routeMatches, dispatch]
  · unfold dispatch
    rfl

/-- C7 witness: a GET of the unregistered path `/nonexistent-route` is
answered with the 404 JSON body, and GET `/` with the static document. -/
theorem C7_witness :
    routeMatches .get "/nonexistent-route" = false ∧
    (dispatch hasAtSign none 0 .get "/nonexistent-route" ⟨none, none⟩ initDb =
       (404, .errMsg "Not Found", initDb) ∧
     dispatch hasAtSign none 0 .get "/" ⟨none, none⟩ initDb =
       (200, .html, initDb)) :=
  ⟨by decide,
   C7_router_contract hasAtSign none 0 .get "/nonexistent-route" ⟨none, none⟩
     initDb (by decide)⟩

/-- C8: the list operation is idempotent and side-effect-free: for every
gateway state and store state it returns the store unchanged, and a second
call on the resulting store returns the identical result. -/
theorem C8_list_idempotent (gw : Option String) (db : Db) :
    (listUsers gw db).2.2 = db ∧
    listUsers gw ((listUsers gw db).2.2) = listUsers gw db := by
  cases gw <;> exact ⟨rfl, rfl⟩

/-- C9: on a store whose ids are all below the AUTO_INCREMENT counter (the
invariant the store maintains), every successful create returns the counter
as the new id — distinct from and greater than every previously issued id —
appends the new row while leaving every existing row unchanged in place, and
re-establishes the invariant with a strictly larger counter, so ids are
monotonically increasing and immutable once assigned. -/
theorem C9_ids_fresh_monotone (isEmail : String → Bool) (now : Nat)
    (b : ReqBody) (db : Db) (e : String)
    (hv : validationErrors isEmail b = [])
    (he : b.email = some e)
    (hfresh : db.hasEmail e = false)
    (hids : db.freshIds = true) :
    (createUser isEmail none now b db).1 = 201 ∧
    (∃ n, (createUser isEmail none now b db).2.1 = .created db.nextId n e) ∧
    (∀ r ∈ db.rows, r.id < db.nextId) ∧
    ((createUser isEmail none now b db).2.2).rows.take db.rows.length =
      db.rows ∧
    ((createUser isEmail none now b db).2.2).freshIds = true ∧
    ((createUser isEmail none now b db).2.2).nextId = db.nextId + 1 := by
  have hlt : ∀ r ∈ db.rows, r.id < db.nextId := by
    intro r hr
    exact of_decide_eq_true (List.all_eq_true.mp hids r hr)
  have hmain : createUser isEmail none now b db =
      (201, .created db.nextId (b.name.getD "") e,
       { rows := db.rows ++ [⟨db.nextId, b.name.getD "", e, now⟩],
         nextId := db.nextId + 1 }) := by
    unfold createUser
    simp [hv, he, hfresh]
  refine ⟨by rw [hmain], ⟨b.name.getD "", by rw [hmain]⟩, hlt, ?_, ?_, by rw [hmain]⟩
  · rw [hmain]
    exact List.take_left db.rows _
  · rw [hmain]
    unfold Db.freshIds
    rw [List.all_eq_true]
    intro r hr
    rcases List.mem_append.mp hr with hr | hr
    · exact decide_eq_true (Nat.lt_succ_of_lt (hlt r hr))
    · rcases List.mem_singleton.mp hr with rfl
      exact decide_eq_true (Nat.lt_succ_self _)

/-- C9 witness: the statement instantiated at the seed store (ids 1 and 2,
counter 3) and the fresh request `{ name: "Eve", email: "eve@example.com" }`. -/
theorem C9_witness :
    (validationErrors hasAtSign ⟨some "Eve", some "eve@example.com"⟩ = [] ∧
     initDb.hasEmail "eve@example.com" = false ∧
     initDb.freshIds = true) ∧
    ((createUser hasAtSign none 4 ⟨some "Eve", some "eve@example.com"⟩
        initDb).1 = 201 ∧
     (∃ n, (createUser hasAtSign none 4 ⟨some "Eve", some "eve@example.com"⟩
        initDb).2.1 = .created initDb.nextId n "eve@example.com") ∧
     (∀ r ∈ initDb.rows, r.id < initDb.nextId) ∧
     ((createUser hasAtSign none 4 ⟨some "Eve", some "eve@example.com"⟩
        initDb).2.2).rows.take initDb.rows.length = initDb.rows ∧
     ((createUser hasAtSign none 4 ⟨some "Eve", some "eve@example.com"⟩
        initDb).2.2).freshIds = true ∧
     ((createUser hasAtSign none 4 ⟨some "Eve", some "eve@example.com"⟩
        initDb).2.2).nextId = initDb.nextId + 1) :=
  ⟨⟨by decide, by decide, by decide⟩,
   C9_ids_fresh_monotone hasAtSign 4 ⟨some "Eve", some "eve@example.com"⟩
     initDb "eve@example.com" (by decide) rfl (by decide) (by decide)⟩

/-- C10: a name consisting only of whitespace passes the `notEmpty`
validation (length is checked without trimming), so the create request
`{ name: " ", email: "ws@example.com" }` succeeds with 201, the row is
stored, and a subsequent list returns it with the all-whitespace name. -/
theorem C10_whitespace_name_accepted :
    nameValid ⟨some " ", some "ws@example.com"⟩ = true ∧
    validationErrors hasAtSign ⟨some " ", some "ws@example.com"⟩ = [] ∧
    (createUser hasAtSign none 7 ⟨some " ", some "ws@example.com"⟩
       initDb).1 = 201 ∧
    (listUsers none ((createUser hasAtSign none 7
        ⟨some " ", some "ws@example.com"⟩ initDb).2.2)).2.1 =
      .userList [(1, "John Doe", "john@example.com"),
                 (2, "Jane Smith", "jane@example.com"),
                 (3, " ", "ws@example.com")] := by
  refine ⟨rfl, by decide, by decide, by decide⟩

end NotificationService
